import Mathlib

/-!
Shallow embedding of `FullPipelineRenderer`
(suite/pts/deviceTests/opengl/jni/fullpipeline/FullPipelineRenderer.cpp).

Modelling conventions:
* C `float`/`double` values are embedded as exact rationals (`ℚ`).  Every
  arithmetic operation this file performs on floats (powers of two, halving,
  reciprocals of powers of two, small-integer subtraction) is exact in binary
  floating point in the ranges exercised, so the rational embedding computes
  the same values the C code does.
* External collaborators (`Renderer::setUp`, `GLUtils::createProgram`,
  `GLUtils::genRandTex`, `glGetError`, `eglSwapBuffers`,
  `Renderer::tearDown`) are inputs: each lifecycle function takes an
  environment record holding the value the collaborator returns.
* GL/EGL side effects are recorded in an ordered trace of `GLCall` events.
* The `Matrix`, `Mesh` and scene-graph classes are external collaborators;
  the spec scopes them out, so matrices are embedded symbolically as the
  construction the renderer performs (which constructor was called, with
  which arguments), and the scene graph as the tree of nodes built.
-/

namespace FullPipeline

/-- GL_NO_ERROR constant from GLES2/gl2.h. -/
def GL_NO_ERROR : ℕ := 0

/-- GL_FRAMEBUFFER constant from GLES2/gl2.h. -/
def GL_FRAMEBUFFER : ℕ := 0x8D40

/-- GL_CULL_FACE constant from GLES2/gl2.h. -/
def GL_CULL_FACE : ℕ := 0x0B44

/-- GL_DEPTH_TEST constant from GLES2/gl2.h. -/
def GL_DEPTH_TEST : ℕ := 0x0B71

/-- GL_DEPTH_BUFFER_BIT constant from GLES2/gl2.h. -/
def GL_DEPTH_BUFFER_BIT : ℕ := 0x00000100

/-- GL_COLOR_BUFFER_BIT constant from GLES2/gl2.h. -/
def GL_COLOR_BUFFER_BIT : ℕ := 0x00004000

/-- FP_NUM_VERTICES: number of vertices of the quad (two triangles). -/
def FP_NUM_VERTICES : ℕ := 6

/-- FP_VERTICES: the quad vertex positions (x, y, z per vertex). -/
def FP_VERTICES : List ℚ :=
  [1, 1, 0,
   0, 1, 0,
   0, 0, 0,
   0, 0, 0,
   1, 0, 0,
   1, 1, 0]

/-- FP_NORMALS: the quad vertex normals, all pointing along +z. -/
def FP_NORMALS : List ℚ :=
  [0, 0, 1,
   0, 0, 1,
   0, 0, 1,
   0, 0, 1,
   0, 0, 1,
   0, 0, 1]

/-- FP_TEX_COORDS: the quad texture coordinates (u, v per vertex). -/
def FP_TEX_COORDS : List ℚ :=
  [1, 1,
   0, 1,
   0, 0,
   0, 0,
   1, 0,
   1, 1]

/-- Symbolic embedding of the external `Matrix` class: a matrix is
represented by the construction the renderer performed. `newMatrix` is the
default constructor (`new Matrix()`), `identity` the state after
`m->identity()`, `translate m x y z` the state of `m` after
`m->translate(x, y, z)`. -/
inductive Matrix where
  | newMatrix : Matrix
  | identity : Matrix
  | newLookAt (eyeX eyeY eyeZ centerX centerY centerZ upX upY upZ : ℚ) : Matrix
  | newFrustum (left right bottom top near far : ℚ) : Matrix
  | newScale (sx sy sz : ℚ) : Matrix
  | translate (m : Matrix) (x y z : ℚ) : Matrix
deriving DecidableEq

/-- Embedding of the external `Mesh` class: the arguments of the
constructor call `new Mesh(vertices, normals, texCoords, numVertices,
textureId)`. -/
structure Mesh where
  vertices : List ℚ
  normals : List ℚ
  texCoords : List ℚ
  numVertices : ℕ
  textureId : ℕ
deriving DecidableEq

/-- Embedding of the external `FullPipelineProgram` class: it wraps the GL
program id passed to its constructor. -/
structure FullPipelineProgram where
  programId : ℕ
deriving DecidableEq

/-- Scene-graph nodes below the root: `FullPipelineMesh` leaves and
`TransformationNode`s with their transform matrix and children, added in
`addChild` order. -/
inductive SceneNode where
  | meshNode (mesh : Mesh) : SceneNode
  | transformNode (transform : Matrix) (children : List SceneNode) : SceneNode

/-- The scene graph root (`ProgramNode`) is its list of children in
`addChild` order. -/
def SceneGraph : Type := List SceneNode

/-- The fields of `FullPipelineRenderer` (together with the inherited
`Renderer` fields it reads: `width`, `height`, `mFboId`, `mEglDisplay`,
`mEglSurface`, `mTextureId`, `mWorkload`).  Heap pointers are `Option`s,
`NULL` being `none`. -/
structure RendererState where
  workload : ℤ
  width : ℕ
  height : ℕ
  fboId : ℕ
  eglDisplay : ℕ
  eglSurface : ℕ
  program : Option FullPipelineProgram
  sceneGraph : Option SceneGraph
  modelMatrix : Option Matrix
  viewMatrix : Option Matrix
  projectionMatrix : Option Matrix
  mesh : Option Mesh
  textureId : ℕ

/-- The constructor `FullPipelineRenderer(window, workload)`: delegates to
`Renderer(window, workload)` (whose surface-dependent fields `width`,
`height`, `mFboId`, `mEglDisplay`, `mEglSurface` are supplied as
parameters here, and whose `mTextureId` starts at 0) and initialises every
owned pointer to `NULL`. -/
def construct (workload : ℤ) (width height fboId eglDisplay eglSurface : ℕ) :
    RendererState :=
  { workload := workload
    width := width
    height := height
    fboId := fboId
    eglDisplay := eglDisplay
    eglSurface := eglSurface
    program := none
    sceneGraph := none
    modelMatrix := none
    viewMatrix := none
    projectionMatrix := none
    mesh := none
    textureId := 0 }

/-- Results of the external collaborators `setUp` consults:
`Renderer::setUp()`, `GLUtils::createProgram(...)` and
`GLUtils::genRandTex(width, height)`. -/
structure SetUpEnv where
  baseSetUpResult : Bool
  createProgramResult : ℕ
  genRandTexResult : ℕ

/-- Results of the external collaborators `draw` consults: `glGetError()`
after the scene-graph traversal, and `eglSwapBuffers(...)`. -/
structure DrawEnv where
  glGetErrorResult : ℕ
  eglSwapBuffersResult : Bool

/-- Result of the external collaborator `Renderer::tearDown()`. -/
structure TearDownEnv where
  baseTearDownResult : Bool

/-- Ordered trace of GL/EGL side effects a lifecycle call performs.
`modelIdentity` records `mModelMatrix->identity()`, `drawScene` records
`mSceneGraph->draw(*mProgram, *mModelMatrix, *mViewMatrix,
*mProjectionMatrix)` with the values passed, `baseTearDownCall` records the
delegation to `Renderer::tearDown()`, `logGLError` the `ALOGV` of a GL
error code. -/
inductive GLCall where
  | glBindFramebuffer (target fbo : ℕ) : GLCall
  | glClearColor (r g b a : ℚ) : GLCall
  | glEnable (cap : ℕ) : GLCall
  | glClear (mask : ℕ) : GLCall
  | modelIdentity : GLCall
  | drawScene (program : Option FullPipelineProgram) (model view projection : Option Matrix)
      (graph : Option SceneGraph) : GLCall
  | logGLError (err : ℕ) : GLCall
  | glFinish : GLCall
  | eglSwapBuffers (display surface : ℕ) : GLCall
  | glDeleteTextures (n : ℕ) (textureId : ℕ) : GLCall
  | baseTearDownCall : GLCall

/-- Number of iterations of `for (int i = 0; i < count; i++)` where
`count` is a float: the loop body runs exactly for the integers `i` with
`(i : ℚ) < count`, i.e. `⌈count⌉₊` times (`Nat.ceil` of a nonpositive
rational is 0). -/
def loopIterations (count : ℚ) : ℕ := ⌈count⌉₊

/-- The grid of transformation nodes built by the nested loops of `setUp`
(lines 158-167): outer index `i`, inner index `j`, each iteration appending
to the scene graph a `TransformationNode` whose matrix is
`Matrix::newScale(scale, scale, scale)` then `translate(i - middle,
j - middle, 0)`, holding a single `FullPipelineMesh(mMesh)` child. -/
def gridChildren (n : ℕ) (middle scale : ℚ) (mesh : Mesh) : List SceneNode :=
  (List.range n).flatMap fun (i : ℕ) =>
    (List.range n).map fun (j : ℕ) =>
      SceneNode.transformNode
        (Matrix.translate (Matrix.newScale scale scale scale)
          ((i : ℚ) - middle) ((j : ℚ) - middle) 0)
        [SceneNode.meshNode mesh]

/-- `FullPipelineRenderer::setUp` (lines 103-169), translated statement by
statement; returns the boolean result and the renderer state after the
call. -/
def setUp (env : SetUpEnv) (s : RendererState) : Bool × RendererState :=
  if env.baseSetUpResult = false then
    (false, s)
  else
    let programId := env.createProgramResult
    if programId = 0 then
      (false, s)
    else
      let s1 := { s with program := some ⟨programId⟩ }
      let s2 := { s1 with modelMatrix := some Matrix.newMatrix }
      let eyeX : ℚ := 0
      let eyeY : ℚ := 0
      let eyeZ : ℚ := 2
      let centerX : ℚ := 0
      let centerY : ℚ := 0
      let centerZ : ℚ := 0
      let upX : ℚ := 0
      let upY : ℚ := 1
      let upZ : ℚ := 0
      let vm := Matrix.newLookAt eyeX eyeY eyeZ centerX centerY centerZ upX upY upZ
      let s3 := { s2 with viewMatrix := some vm }
      let ratio : ℚ := (s.width : ℚ) / (s.height : ℚ)
      let left := -ratio
      let right := ratio
      let bottom : ℚ := -1
      let top : ℚ := 1
      let near : ℚ := 1
      let far : ℚ := 3
      let pm := Matrix.newFrustum left right bottom top near far
      let s4 := { s3 with projectionMatrix := some pm }
      let s5 := { s4 with textureId := env.genRandTexResult }
      if s5.textureId = 0 then
        (false, s5)
      else
        let count : ℚ := (2 : ℚ) ^ (s.workload - 1)
        let middle : ℚ := count / 2
        let scale : ℚ := 1 / count
        let mesh : Mesh := ⟨FP_VERTICES, FP_NORMALS, FP_TEX_COORDS, FP_NUM_VERTICES,
          s5.textureId⟩
        let s6 := { s5 with mesh := some mesh }
        let graph := gridChildren (loopIterations count) middle scale mesh
        let s7 := { s6 with sceneGraph := some graph }
        (true, s7)

/-- `FullPipelineRenderer::tearDown` (lines 171-192), translated statement
by statement; returns the boolean result, the trace of GL/base calls, and
the renderer state after the call. -/
def tearDown (env : TearDownEnv) (s : RendererState) :
    Bool × List GLCall × RendererState :=
  let p : List GLCall × RendererState :=
    if s.textureId ≠ 0 then
      ([GLCall.glDeleteTextures 1 s.textureId], { s with textureId := 0 })
    else
      ([], s)
  let trace := p.1 ++ [GLCall.baseTearDownCall]
  if env.baseTearDownResult = false then
    (false, trace, p.2)
  else
    (true, trace,
      { p.2 with
        modelMatrix := none
        viewMatrix := none
        projectionMatrix := none
        program := none
        sceneGraph := none
        mesh := none })

/-- `FullPipelineRenderer::draw` (lines 194-218), translated statement by
statement; returns the boolean result, the trace of GL/EGL calls, and the
renderer state after the call (the model matrix is mutated to the
identity). -/
def draw (env : DrawEnv) (s : RendererState) (offscreen : Bool) :
    Bool × List GLCall × RendererState :=
  let s1 := { s with modelMatrix := some Matrix.identity }
  let pre : List GLCall :=
    [GLCall.glBindFramebuffer GL_FRAMEBUFFER (if offscreen then s.fboId else 0),
     GLCall.glClearColor 0 0 0 0,
     GLCall.glEnable GL_CULL_FACE,
     GLCall.glEnable GL_DEPTH_TEST,
     GLCall.glClear (GL_DEPTH_BUFFER_BIT ||| GL_COLOR_BUFFER_BIT),
     GLCall.modelIdentity,
     GLCall.drawScene s1.program s1.modelMatrix s1.viewMatrix s1.projectionMatrix
       s1.sceneGraph]
  let err := env.glGetErrorResult
  if err ≠ GL_NO_ERROR then
    (false, pre ++ [GLCall.logGLError err], s1)
  else
    if offscreen then
      (true, pre ++ [GLCall.glFinish], s1)
    else
      (env.eglSwapBuffersResult, pre ++ [GLCall.eglSwapBuffers s.eglDisplay s.eglSurface], s1)

/-- A renderer state holding a live program and texture, used as a
concrete test fixture. -/
def sLive : RendererState :=
  { construct 1 8 8 4 1 2 with program := some ⟨5⟩, textureId := 3 }

/-! ### Helper lemmas about the embedding -/

/-- The iteration indices of the float-bounded loop are exactly the
naturals below `loopIterations count`. -/
theorem loopIterations_spec (count : ℚ) (n : ℕ) :
    n < loopIterations count ↔ (n : ℚ) < count :=
  Nat.lt_ceil

/-- Length of a rectangular flatMap-of-map grid. -/
theorem range_flatMap_map_length {β : Type} (g : ℕ → ℕ → β) (m n : ℕ) :
    ((List.range m).flatMap fun i => (List.range n).map (g i)).length = m * n := by
  induction m with
  | zero => simp
  | succ k ih =>
      rw [List.range_succ, List.flatMap_append, List.length_append, ih,
        List.flatMap_singleton, List.length_map, List.length_range, Nat.succ_mul]

/-- Entry `i * n + j` of a rectangular flatMap-of-map grid. -/
theorem range_flatMap_map_getElem {β : Type} (g : ℕ → ℕ → β) (m n i j : ℕ)
    (hi : i < m) (hj : j < n) :
    ((List.range m).flatMap fun i => (List.range n).map (g i))[i * n + j]? =
      some (g i j) := by
  induction m with
  | zero => omega
  | succ k ih =>
      rw [List.range_succ, List.flatMap_append]
      by_cases hik : i < k
      · have hlt : i * n + j < ((List.range k).flatMap
            fun i => (List.range n).map (g i)).length := by
          rw [range_flatMap_map_length]
          have h1 : i * n + j < i * n + n := Nat.add_lt_add_left hj _
          have h2 : i * n + n = (i + 1) * n := (Nat.succ_mul i n).symm
          have h3 : (i + 1) * n ≤ k * n := Nat.mul_le_mul_right n hik
          omega
        rw [List.getElem?_append_left hlt]
        exact ih hik
      · have hik2 : i = k := by omega
        subst hik2
        have hlen : ((List.range i).flatMap
            fun i => (List.range n).map (g i)).length = i * n :=
          range_flatMap_map_length g i n
        have hge : ((List.range i).flatMap
            fun i => (List.range n).map (g i)).length ≤ i * n + j := by omega
        rw [List.getElem?_append_right hge, hlen, Nat.add_sub_cancel_left,
          List.flatMap_singleton, List.getElem?_map, List.getElem?_range hj]
        rfl

/-- Every entry of the grid is a transformation node holding exactly one
mesh child. -/
theorem gridChildren_shape (n : ℕ) (middle scale : ℚ) (mesh : Mesh) :
    ∀ c ∈ gridChildren n middle scale mesh,
      ∃ t, c = SceneNode.transformNode t [SceneNode.meshNode mesh] := by
  intro c hc
  unfold gridChildren at hc
  rw [List.mem_flatMap] at hc
  obtain ⟨i, _, hc⟩ := hc
  rw [List.mem_map] at hc
  obtain ⟨j, _, hc⟩ := hc
  exact ⟨_, hc.symm⟩

/-- On a success path, `setUp` returns true and stores the grid built from
`count = 2^(workload - 1)`. -/
theorem setUp_success_sceneGraph (env : SetUpEnv) (s : RendererState)
    (hb : env.baseSetUpResult = true) (hp : env.createProgramResult ≠ 0)
    (ht : env.genRandTexResult ≠ 0) :
    (setUp env s).1 = true ∧
    (setUp env s).2.sceneGraph =
      some (gridChildren (loopIterations ((2 : ℚ) ^ (s.workload - 1)))
        ((2 : ℚ) ^ (s.workload - 1) / 2) (1 / (2 : ℚ) ^ (s.workload - 1))
        ⟨FP_VERTICES, FP_NORMALS, FP_TEX_COORDS, FP_NUM_VERTICES,
          env.genRandTexResult⟩) := by
  unfold setUp
  simp [hb, hp, ht]

/-- Length of the grid built by the nested loops. -/
theorem gridChildren_length (n : ℕ) (middle scale : ℚ) (mesh : Mesh) :
    (gridChildren n middle scale mesh).length = n * n := by
  unfold gridChildren
  exact range_flatMap_map_length _ n n

/-- The grid entry at flattened index `i * n + j`. -/
theorem gridChildren_getElem (n : ℕ) (middle scale : ℚ) (mesh : Mesh)
    (i j : ℕ) (hi : i < n) (hj : j < n) :
    (gridChildren n middle scale mesh)[i * n + j]? =
      some (SceneNode.transformNode
        (Matrix.translate (Matrix.newScale scale scale scale)
          ((i : ℚ) - middle) ((j : ℚ) - middle) 0)
        [SceneNode.meshNode mesh]) := by
  unfold gridChildren
  exact range_flatMap_map_getElem _ n n i j hi hj

/-! ### Claim theorems -/

/-- C1: for every workload `w ≥ 1`, a successful `setUp` populates the
scene graph with exactly `count * count` transformation-node children,
`count = 2^(w-1)`; each transformation node holds exactly one mesh child,
and the node at grid position `(i, j)` carries a transform built as a
uniform scale by `1/count` followed by a translation by
`(i - count/2, j - count/2, 0)`. -/
theorem setUp_builds_grid (env : SetUpEnv) (s : RendererState) (w : ℕ)
    (hw : 1 ≤ w) (hwl : s.workload = (w : ℤ))
    (hb : env.baseSetUpResult = true) (hp : env.createProgramResult ≠ 0)
    (ht : env.genRandTexResult ≠ 0) :
    (setUp env s).1 = true ∧
    ∃ children : List SceneNode,
      (setUp env s).2.sceneGraph = some children ∧
      children.length = 2 ^ (w - 1) * 2 ^ (w - 1) ∧
      (∀ c ∈ children, ∃ t, c = SceneNode.transformNode t
        [SceneNode.meshNode ⟨FP_VERTICES, FP_NORMALS, FP_TEX_COORDS,
          FP_NUM_VERTICES, env.genRandTexResult⟩]) ∧
      ∀ i j : ℕ, i < 2 ^ (w - 1) → j < 2 ^ (w - 1) →
        children[i * 2 ^ (w - 1) + j]? = some (SceneNode.transformNode
          (Matrix.translate
            (Matrix.newScale (1 / ((2 ^ (w - 1) : ℕ) : ℚ))
              (1 / ((2 ^ (w - 1) : ℕ) : ℚ)) (1 / ((2 ^ (w - 1) : ℕ) : ℚ)))
            ((i : ℚ) - ((2 ^ (w - 1) : ℕ) : ℚ) / 2)
            ((j : ℚ) - ((2 ^ (w - 1) : ℕ) : ℚ) / 2) 0)
          [SceneNode.meshNode ⟨FP_VERTICES, FP_NORMALS, FP_TEX_COORDS,
            FP_NUM_VERTICES, env.genRandTexResult⟩]) := by
  obtain ⟨hres, hsg⟩ := setUp_success_sceneGraph env s hb hp ht
  have hcast : (2 : ℚ) ^ (s.workload - 1) = ((2 ^ (w - 1) : ℕ) : ℚ) := by
    rw [hwl, show (w : ℤ) - 1 = ((w - 1 : ℕ) : ℤ) by omega, zpow_natCast]
    push_cast
    ring
  rw [hcast] at hsg
  unfold loopIterations at hsg
  rw [Nat.ceil_natCast] at hsg
  refine ⟨hres, _, hsg, gridChildren_length _ _ _ _, gridChildren_shape _ _ _ _,
    fun i j hi hj => gridChildren_getElem _ _ _ _ i j hi hj⟩

/-- C1 witness: concrete successful setup at workload 2 on a 64×32
surface. -/
theorem setUp_builds_grid_witness :
    (setUp ⟨true, 7, 5⟩ (construct 2 64 32 3 1 2)).1 = true ∧
    ∃ children : List SceneNode,
      (setUp ⟨true, 7, 5⟩ (construct 2 64 32 3 1 2)).2.sceneGraph = some children ∧
      children.length = 2 ^ (2 - 1) * 2 ^ (2 - 1) ∧
      (∀ c ∈ children, ∃ t, c = SceneNode.transformNode t
        [SceneNode.meshNode ⟨FP_VERTICES, FP_NORMALS, FP_TEX_COORDS,
          FP_NUM_VERTICES, (5 : ℕ)⟩]) ∧
      ∀ i j : ℕ, i < 2 ^ (2 - 1) → j < 2 ^ (2 - 1) →
        children[i * 2 ^ (2 - 1) + j]? = some (SceneNode.transformNode
          (Matrix.translate
            (Matrix.newScale (1 / ((2 ^ (2 - 1) : ℕ) : ℚ))
              (1 / ((2 ^ (2 - 1) : ℕ) : ℚ)) (1 / ((2 ^ (2 - 1) : ℕ) : ℚ)))
            ((i : ℚ) - ((2 ^ (2 - 1) : ℕ) : ℚ) / 2)
            ((j : ℚ) - ((2 ^ (2 - 1) : ℕ) : ℚ) / 2) 0)
          [SceneNode.meshNode ⟨FP_VERTICES, FP_NORMALS, FP_TEX_COORDS,
            FP_NUM_VERTICES, (5 : ℕ)⟩]) :=
  setUp_builds_grid ⟨true, 7, 5⟩ (construct 2 64 32 3 1 2) 2 (by decide) rfl rfl
    (by decide) (by decide)

/-- C2: `setUp` returns false whenever `GLUtils::createProgram` returns 0
or `GLUtils::genRandTex` returns 0; given that the base-class `setUp`
succeeded, it returns true exactly when both succeed. -/
theorem setUp_result_characterisation (env : SetUpEnv) (s : RendererState) :
    ((env.createProgramResult = 0 ∨ env.genRandTexResult = 0) →
      (setUp env s).1 = false) ∧
    (env.baseSetUpResult = true →
      ((setUp env s).1 = true ↔
        env.createProgramResult ≠ 0 ∧ env.genRandTexResult ≠ 0)) := by
  obtain ⟨b, p, t⟩ := env
  unfold setUp
  cases b <;> by_cases hp : p = 0 <;> by_cases ht : t = 0 <;> simp [hp, ht]

/-- C2 witness: a concrete failing program creation makes setUp fail. -/
theorem setUp_result_characterisation_witness :
    (setUp ⟨true, 0, 5⟩ (construct 2 64 32 3 1 2)).1 = false :=
  (setUp_result_characterisation ⟨true, 0, 5⟩ (construct 2 64 32 3 1 2)).1
    (Or.inl rfl)

/-- C8: for workload 0 the float loop bound is `2^(-1) = 1/2`, yet the
loops still run one iteration each, so a successful `setUp` builds a scene
graph with exactly one transformation node (holding one mesh child) whose
transform scales by 2 and translates by `(-1/4, -1/4, 0)`. -/
theorem setUp_workload_zero (env : SetUpEnv) (s : RendererState)
    (hwl : s.workload = 0)
    (hb : env.baseSetUpResult = true) (hp : env.createProgramResult ≠ 0)
    (ht : env.genRandTexResult ≠ 0) :
    (setUp env s).1 = true ∧
    (setUp env s).2.sceneGraph = some [SceneNode.transformNode
      (Matrix.translate (Matrix.newScale 2 2 2) (-(1/4)) (-(1/4)) 0)
      [SceneNode.meshNode ⟨FP_VERTICES, FP_NORMALS, FP_TEX_COORDS,
        FP_NUM_VERTICES, env.genRandTexResult⟩]] := by
  obtain ⟨hres, hsg⟩ := setUp_success_sceneGraph env s hb hp ht
  rw [hwl] at hsg
  norm_num at hsg
  have hiter : loopIterations ((1 : ℚ) / 2) = 1 := by
    unfold loopIterations
    have h1 : ⌈(1 : ℚ) / 2⌉₊ ≤ 1 := Nat.ceil_le.mpr (by norm_num)
    have h2 : 0 < ⌈(1 : ℚ) / 2⌉₊ := Nat.ceil_pos.mpr (by norm_num)
    omega
  rw [hiter] at hsg
  refine ⟨hres, ?_⟩
  rw [hsg]
  congr 1
  unfold gridChildren
  rw [show List.range 1 = [0] from rfl]
  rw [List.flatMap_singleton, List.map_cons, List.map_nil]
  norm_num

/-- C8 witness: concrete successful setup at workload 0. -/
theorem setUp_workload_zero_witness :
    (setUp ⟨true, 7, 5⟩ (construct 0 64 32 3 1 2)).1 = true ∧
    (setUp ⟨true, 7, 5⟩ (construct 0 64 32 3 1 2)).2.sceneGraph =
      some [SceneNode.transformNode
        (Matrix.translate (Matrix.newScale 2 2 2) (-(1/4)) (-(1/4)) 0)
        [SceneNode.meshNode ⟨FP_VERTICES, FP_NORMALS, FP_TEX_COORDS,
          FP_NUM_VERTICES, (5 : ℕ)⟩]] :=
  setUp_workload_zero ⟨true, 7, 5⟩ (construct 0 64 32 3 1 2) rfl rfl
    (by decide) (by decide)

/-- C9: when texture generation fails, `setUp` returns false but the
program, model matrix, view matrix and projection matrix are already
allocated and remain set, while the mesh and scene graph of a freshly
constructed renderer remain `NULL`: no rollback happens. -/
theorem setUp_partial_on_texture_failure (env : SetUpEnv)
    (wl : ℤ) (width height fboId dpy srf : ℕ)
    (hb : env.baseSetUpResult = true) (hp : env.createProgramResult ≠ 0)
    (ht : env.genRandTexResult = 0) :
    (setUp env (construct wl width height fboId dpy srf)).1 = false ∧
    (setUp env (construct wl width height fboId dpy srf)).2.program =
      some ⟨env.createProgramResult⟩ ∧
    (setUp env (construct wl width height fboId dpy srf)).2.modelMatrix =
      some Matrix.newMatrix ∧
    (setUp env (construct wl width height fboId dpy srf)).2.viewMatrix =
      some (Matrix.newLookAt 0 0 2 0 0 0 0 1 0) ∧
    (setUp env (construct wl width height fboId dpy srf)).2.projectionMatrix =
      some (Matrix.newFrustum (-((width : ℚ) / (height : ℚ)))
        ((width : ℚ) / (height : ℚ)) (-1) 1 1 3) ∧
    (setUp env (construct wl width height fboId dpy srf)).2.mesh = none ∧
    (setUp env (construct wl width height fboId dpy srf)).2.sceneGraph = none := by
  unfold setUp construct
  simp [hb, hp, ht]

/-- C9 witness: concrete texture-generation failure. -/
theorem setUp_partial_on_texture_failure_witness :
    (setUp ⟨true, 7, 0⟩ (construct 2 64 32 3 1 2)).1 = false ∧
    (setUp ⟨true, 7, 0⟩ (construct 2 64 32 3 1 2)).2.program = some ⟨7⟩ ∧
    (setUp ⟨true, 7, 0⟩ (construct 2 64 32 3 1 2)).2.modelMatrix =
      some Matrix.newMatrix ∧
    (setUp ⟨true, 7, 0⟩ (construct 2 64 32 3 1 2)).2.viewMatrix =
      some (Matrix.newLookAt 0 0 2 0 0 0 0 1 0) ∧
    (setUp ⟨true, 7, 0⟩ (construct 2 64 32 3 1 2)).2.projectionMatrix =
      some (Matrix.newFrustum (-((64 : ℚ) / (32 : ℚ))) ((64 : ℚ) / (32 : ℚ))
        (-1) 1 1 3) ∧
    (setUp ⟨true, 7, 0⟩ (construct 2 64 32 3 1 2)).2.mesh = none ∧
    (setUp ⟨true, 7, 0⟩ (construct 2 64 32 3 1 2)).2.sceneGraph = none :=
  setUp_partial_on_texture_failure ⟨true, 7, 0⟩ 2 64 32 3 1 2 rfl (by decide) rfl

/-- C3: whenever `glGetError` after the scene-graph traversal reports a
code other than `GL_NO_ERROR`, `draw` returns false and neither `glFinish`
nor `eglSwapBuffers` appears in the trace of that frame. -/
theorem draw_gl_error_fails (env : DrawEnv) (s : RendererState) (offscreen : Bool)
    (h : env.glGetErrorResult ≠ GL_NO_ERROR) :
    (draw env s offscreen).1 = false ∧
    GLCall.glFinish ∉ (draw env s offscreen).2.1 ∧
    ∀ dpy srf, GLCall.eglSwapBuffers dpy srf ∉ (draw env s offscreen).2.1 := by
  unfold draw
  refine ⟨by simp [h], by simp [h], fun dpy srf => by simp [h]⟩

/-- C3 witness: a concrete GL error code 1282 fails the frame. -/
theorem draw_gl_error_fails_witness :
    (draw ⟨1282, true⟩ sLive false).1 = false ∧
    GLCall.glFinish ∉ (draw ⟨1282, true⟩ sLive false).2.1 ∧
    ∀ dpy srf, GLCall.eglSwapBuffers dpy srf ∉ (draw ⟨1282, true⟩ sLive false).2.1 :=
  draw_gl_error_fails ⟨1282, true⟩ sLive false (by decide)

/-- C4: with no GPU error, `draw(offscreen = true)` calls `glFinish` and
returns true, while `draw(offscreen = false)` calls `eglSwapBuffers` and
returns that call's result. -/
theorem draw_no_error_paths (env : DrawEnv) (s : RendererState)
    (h : env.glGetErrorResult = GL_NO_ERROR) :
    ((draw env s true).1 = true ∧ GLCall.glFinish ∈ (draw env s true).2.1) ∧
    ((draw env s false).1 = env.eglSwapBuffersResult ∧
      GLCall.eglSwapBuffers s.eglDisplay s.eglSurface ∈ (draw env s false).2.1) := by
  unfold draw
  simp [h]

/-- C4 witness: no error, concrete swap result false is returned as is. -/
theorem draw_no_error_paths_witness :
    ((draw ⟨0, false⟩ sLive true).1 = true ∧
      GLCall.glFinish ∈ (draw ⟨0, false⟩ sLive true).2.1) ∧
    ((draw ⟨0, false⟩ sLive false).1 = false ∧
      GLCall.eglSwapBuffers sLive.eglDisplay sLive.eglSurface ∈
        (draw ⟨0, false⟩ sLive false).2.1) :=
  draw_no_error_paths ⟨0, false⟩ sLive rfl

/-- C5: every call to `draw` starts, in this order and before the error
check, with: bind the offscreen framebuffer (`mFboId`) when offscreen and
the default framebuffer (0) otherwise, set the clear color, enable culling
and depth test, clear color and depth buffers, reset the model matrix to
the identity, and draw the scene graph with the lighting program and the
model, view and projection matrices. -/
theorem draw_call_sequence (env : DrawEnv) (s : RendererState) (offscreen : Bool) :
    (draw env s offscreen).2.1.take 7 =
      [GLCall.glBindFramebuffer GL_FRAMEBUFFER (if offscreen then s.fboId else 0),
       GLCall.glClearColor 0 0 0 0,
       GLCall.glEnable GL_CULL_FACE,
       GLCall.glEnable GL_DEPTH_TEST,
       GLCall.glClear (GL_DEPTH_BUFFER_BIT ||| GL_COLOR_BUFFER_BIT),
       GLCall.modelIdentity,
       GLCall.drawScene s.program (some Matrix.identity) s.viewMatrix
         s.projectionMatrix s.sceneGraph] ∧
    (draw env s offscreen).2.2.modelMatrix = some Matrix.identity := by
  unfold draw
  by_cases h : env.glGetErrorResult = GL_NO_ERROR <;> cases offscreen <;> simp [h]

/-- C6 counterexample: when the base-class `tearDown` fails, the call
returns early and the program pointer is not set to `NULL`, refuting that
every call destroys all renderer-owned resources. -/
theorem tearDown_base_failure_keeps_program :
    (tearDown ⟨false⟩ sLive).1 = false ∧
    (tearDown ⟨false⟩ sLive).2.2.program ≠ none := by
  decide

/-- C6 amended: every call to `tearDown` leaves the texture handle 0
(deleting the texture when it was non-zero); when the base-class
`tearDown` succeeds, the call returns true and the model, view and
projection matrices, the program, the scene graph and the mesh pointers
are all set to `NULL`. -/
theorem tearDown_destroys_amended (env : TearDownEnv) (s : RendererState) :
    (tearDown env s).2.2.textureId = 0 ∧
    (s.textureId ≠ 0 →
      GLCall.glDeleteTextures 1 s.textureId ∈ (tearDown env s).2.1) ∧
    (env.baseTearDownResult = true →
      (tearDown env s).1 = true ∧
      (tearDown env s).2.2.modelMatrix = none ∧
      (tearDown env s).2.2.viewMatrix = none ∧
      (tearDown env s).2.2.projectionMatrix = none ∧
      (tearDown env s).2.2.program = none ∧
      (tearDown env s).2.2.sceneGraph = none ∧
      (tearDown env s).2.2.mesh = none) := by
  obtain ⟨b⟩ := env
  unfold tearDown
  by_cases htex : s.textureId = 0 <;> cases b <;> simp [htex]

/-- C6 witness: concrete tear-down with succeeding base class. -/
theorem tearDown_destroys_amended_witness :
    (tearDown ⟨true⟩ sLive).1 = true ∧
    (tearDown ⟨true⟩ sLive).2.2.modelMatrix = none ∧
    (tearDown ⟨true⟩ sLive).2.2.viewMatrix = none ∧
    (tearDown ⟨true⟩ sLive).2.2.projectionMatrix = none ∧
    (tearDown ⟨true⟩ sLive).2.2.program = none ∧
    (tearDown ⟨true⟩ sLive).2.2.sceneGraph = none ∧
    (tearDown ⟨true⟩ sLive).2.2.mesh = none :=
  (tearDown_destroys_amended ⟨true⟩ sLive).2.2 rfl

/-- C7: base-class failures propagate as booleans: `setUp` returns false
at once (changing nothing) when `Renderer::setUp` fails, `tearDown`
returns false when `Renderer::tearDown` fails, and any non-zero GL error
code makes `draw` return false (the code itself is only logged). -/
theorem base_failure_propagation (envS : SetUpEnv) (envT : TearDownEnv)
    (envD envDtwo : DrawEnv) (s : RendererState) (offscreen : Bool) :
    (envS.baseSetUpResult = false → setUp envS s = (false, s)) ∧
    (envT.baseTearDownResult = false → (tearDown envT s).1 = false) ∧
    (envD.glGetErrorResult ≠ GL_NO_ERROR → envDtwo.glGetErrorResult ≠ GL_NO_ERROR →
      (draw envD s offscreen).1 = false ∧ (draw envDtwo s offscreen).1 = false ∧
      GLCall.logGLError envD.glGetErrorResult ∈ (draw envD s offscreen).2.1) := by
  refine ⟨fun hS => ?_, fun hT => ?_, fun hD hDtwo => ?_⟩
  · unfold setUp
    simp [hS]
  · obtain ⟨b⟩ := envT
    unfold tearDown
    by_cases htex : s.textureId = 0 <;> simp_all
  · refine ⟨?_, ?_, ?_⟩ <;> unfold draw <;> simp [hD, hDtwo]

/-- C7 witness: concrete base failures and GL error codes. -/
theorem base_failure_propagation_witness :
    setUp ⟨false, 7, 5⟩ sLive = (false, sLive) ∧
    (tearDown ⟨false⟩ sLive).1 = false ∧
    ((draw ⟨1281, true⟩ sLive true).1 = false ∧
      (draw ⟨5, false⟩ sLive true).1 = false ∧
      GLCall.logGLError 1281 ∈ (draw ⟨1281, true⟩ sLive true).2.1) :=
  ⟨(base_failure_propagation ⟨false, 7, 5⟩ ⟨false⟩ ⟨1281, true⟩ ⟨5, false⟩
      sLive true).1 rfl,
   (base_failure_propagation ⟨false, 7, 5⟩ ⟨false⟩ ⟨1281, true⟩ ⟨5, false⟩
      sLive true).2.1 rfl,
   (base_failure_propagation ⟨false, 7, 5⟩ ⟨false⟩ ⟨1281, true⟩ ⟨5, false⟩
      sLive true).2.2 (by decide) (by decide)⟩

/-- C10: `tearDown` deletes the texture only when the handle is non-zero,
exactly once, before delegating to the base class; the handle is zeroed
even when the call then fails, and a repeated `tearDown` performs no
further texture deletion. -/
theorem tearDown_texture_exactly_once (env envTwo : TearDownEnv)
    (s : RendererState) :
    ((s.textureId = 0 →
        ∀ n t, GLCall.glDeleteTextures n t ∉ (tearDown env s).2.1) ∧
     (s.textureId ≠ 0 → (tearDown env s).2.1 =
        [GLCall.glDeleteTextures 1 s.textureId, GLCall.baseTearDownCall])) ∧
    (tearDown env s).2.2.textureId = 0 ∧
    ∀ n t, GLCall.glDeleteTextures n t ∉
      (tearDown envTwo (tearDown env s).2.2).2.1 := by
  have hzero : ∀ (e : TearDownEnv) (s1 : RendererState), s1.textureId = 0 →
      ∀ n t, GLCall.glDeleteTextures n t ∉ (tearDown e s1).2.1 := by
    intro e s1 h n t
    obtain ⟨b⟩ := e
    unfold tearDown
    cases b <;> simp [h]
  have hres0 : (tearDown env s).2.2.textureId = 0 := by
    obtain ⟨b⟩ := env
    unfold tearDown
    by_cases htex : s.textureId = 0 <;> cases b <;> simp [htex]
  refine ⟨⟨hzero env s, fun htex => ?_⟩, hres0,
    fun n t => hzero envTwo _ hres0 n t⟩
  obtain ⟨b⟩ := env
  unfold tearDown
  cases b <;> simp [htex]

/-- C10 witness: a live texture handle 3 is deleted once, before the base
call. -/
theorem tearDown_texture_exactly_once_witness :
    (tearDown ⟨true⟩ sLive).2.1 =
      [GLCall.glDeleteTextures 1 3, GLCall.baseTearDownCall] :=
  (tearDown_texture_exactly_once ⟨true⟩ ⟨false⟩ sLive).1.2 (by decide)

end FullPipeline
